import Mathlib

set_option maxHeartbeats 1000000

/-!
Shallow embedding of the ucloud-sandbox-sdk-python HTTP client core and
desktop facade, covering the envd response classifier
(src/ucloud_sandbox/envd/api.py), the polling helper, key mapping, VNC stop
and screenshot operations (src/ucloud_sandbox/desktop/main.py).
-/

/-- Result of one remote command, as described in section 3 of the design
notes: an immutable snapshot of stdout, stderr and the exit code. The
command-handle module itself is not under src. -/
structure CommandResult where
  stdout : String
  stderr : String
  exit_code : Int
deriving Repr, DecidableEq

/-- Modelled from the spec: CommandExitException from
ucloud_sandbox.sandbox.commands.command_handle, which is not under src.
Section 7 of the design notes: a nonzero exit code raises a distinct error
kind carrying the full CommandResult. -/
structure CommandExit where
  result : CommandResult
deriving Repr, DecidableEq

/-- Python exceptions that the embedded functions can raise or propagate. -/
inductive PyExn where
  | attributeError
  | commandExit (result : CommandResult)
  | err (msg : String)
deriving Repr, DecidableEq

/-- Marker for json.JSONDecodeError raised when the body is not valid JSON. -/
inductive JsonDecodeError where
  | mk
deriving Repr, DecidableEq

/-- JSON values as produced by Response.json() of the httpx library when it
parses the body. Numbers are modelled as integers, which covers every
claim-relevant input. -/
inductive JValue where
  | obj (fields : List (String × JValue))
  | arr (elems : List JValue)
  | str (s : String)
  | num (n : Int)
  | bool (b : Bool)
  | null

/-- Fully-read httpx transport response as the classifier sees it: status
code, headers (name-value pairs, looked up case-insensitively as the httpx
Headers class does), body text, and the outcome of Response.json() on that
body. httpx and the json module are external libraries; jsonResult models
the JSON parse outcome of the text field. -/
structure Response where
  status_code : Nat
  headers : List (String × String)
  text : String
  jsonResult : Except JsonDecodeError JValue

/-- Success test of httpx Response.is_success: a 2xx status code. -/
def http_is_success (status : Nat) : Bool :=
  200 ≤ status && status < 300

def Response.is_success (r : Response) : Bool :=
  http_is_success r.status_code

/-- Case-insensitive header lookup, as the httpx Headers.get method does. -/
def headers_get (hs : List (String × String)) (name : String) : Option String :=
  (hs.find? (fun p => p.1.toLower == name.toLower)).map (fun p => p.2)

/-- Python truthiness choice `a or b` on optional strings: None and the
empty string are falsy. -/
def py_or (a b : Option String) : Option String :=
  match a with
  | some s => if s = "" then b else some s
  | none => b

/-- Embedding of get_message (src/ucloud_sandbox/envd/api.py lines 18-24).
The Python body runs `message = e.json().get("message", e.text)` under a
handler that catches only json.JSONDecodeError and falls back to `e.text`.
When json() yields a value that is not an object, the attribute lookup of
`.get` on it raises AttributeError, which no handler catches. -/
def get_message (e : Response) : Except PyExn JValue :=
  match e.jsonResult with
  | .ok (.obj fields) => .ok ((fields.lookup "message").getD (.str e.text))
  | .ok _ => .error .attributeError
  | .error _ => .ok (.str e.text)

/-- Modelled from the spec: the exception classes (SandboxException,
NotFoundException, AuthenticationException, InvalidArgumentException,
NotEnoughSpaceException and the sandbox-timeout exception) live in
ucloud_sandbox.exceptions, which is not under src. Section 3 of the design
notes gives the taxonomy as a tagged union of one kind, a message and an
optional trace id; SandboxException is the generic kind. -/
inductive ErrKind where
  | invalidArgument
  | authenticationFailed
  | notFound
  | insufficientStorage
  | sandboxTimeout
  | generic
deriving Repr, DecidableEq

/-- One classified API error: kind, display message, optional trace id. -/
structure ApiErr where
  kind : ErrKind
  message : String
  trace_id : Option String
deriving Repr, DecidableEq

/-- Modelled from the spec: format_sandbox_timeout_exception lives in
ucloud_sandbox.exceptions, which is not under src. Section 4.1 of the
design notes says the 502 branch delegates to a dedicated formatter that
builds the specialized sandbox-timeout error from the message, and that the
trace id is attached to every constructed error. The enrichment of the
message is not specified beyond being built from the message, so the
message is kept as is and the timeout kind is tagged. -/
def format_sandbox_timeout_exception (message : String) (trace_id : Option String) : ApiErr :=
  ⟨.sandboxTimeout, message, trace_id⟩

mutual

/-- Python repr of a JSON value, used by str() on containers. String
escaping inside repr is not modelled; no theorem depends on these
container branches. -/
def py_repr : JValue → String
  | .obj fs => "\x7b" ++ py_repr_fields fs ++ "\x7d"
  | .arr xs => "[" ++ py_repr_elems xs ++ "]"
  | .str s => "'" ++ s ++ "'"
  | .num n => toString n
  | .bool b => if b then "True" else "False"
  | .null => "None"

/-- Comma-separated reprs of array elements. -/
def py_repr_elems : List JValue → String
  | [] => ""
  | [x] => py_repr x
  | x :: y :: xs => py_repr x ++ ", " ++ py_repr_elems (y :: xs)

/-- Comma-separated reprs of object fields. -/
def py_repr_fields : List (String × JValue) → String
  | [] => ""
  | [f] => "'" ++ f.1 ++ "': " ++ py_repr f.2
  | f :: g :: fs => "'" ++ f.1 ++ "': " ++ py_repr f.2 ++ ", " ++ py_repr_fields (g :: fs)

end

/-- Python str() view of a JSON value: the identity on strings, repr-based
on everything else, as f-string interpolation performs. get_message is
annotated to return str, so on every API response with a string message
this is the identity. -/
def py_fstr : JValue → String
  | .str s => s
  | v => py_repr v

/-- Embedding of format_envd_api_exception
(src/ucloud_sandbox/envd/api.py lines 47-61): the status-code dispatch to
one constructed error. The 429 branch is the f-string
`message ++ ": The requests are being rate limited."`; the final branch is
the f-string `status_code ++ ": " ++ message`. -/
def format_envd_api_exception (status_code : Nat) (message : String)
    (trace_id : Option String) : ApiErr :=
  if status_code = 400 then ⟨.invalidArgument, message, trace_id⟩
  else if status_code = 401 then ⟨.authenticationFailed, message, trace_id⟩
  else if status_code = 404 then ⟨.notFound, message, trace_id⟩
  else if status_code = 429 then
    ⟨.generic, message ++ ": The requests are being rate limited.", trace_id⟩
  else if status_code = 502 then format_sandbox_timeout_exception message trace_id
  else if status_code = 507 then ⟨.insufficientStorage, message, trace_id⟩
  else ⟨.generic, toString status_code ++ ": " ++ message, trace_id⟩

/-- Embedding of handle_envd_api_exception (api.py lines 27-34). The
res.read() call drains the body; the Response model is already fully read,
so draining adds nothing here. The trace id is the Python expression
`res.headers.get("X-Trace-ID") or res.headers.get("x-trace-id")`. If
get_message raises, the exception propagates out of the call. py_fstr is
the string view of the returned message value (the identity on strings),
applied where format_envd_api_exception uses it as a str. -/
def handle_envd_api_exception (res : Response) : Except PyExn (Option ApiErr) :=
  if res.is_success then .ok none
  else
    let trace_id := py_or (headers_get res.headers "X-Trace-ID")
      (headers_get res.headers "x-trace-id")
    match get_message res with
    | .error exn => .error exn
    | .ok m => .ok (some (format_envd_api_exception res.status_code (py_fstr m) trace_id))

/-- Embedding of ahandle_envd_api_exception (api.py lines 37-44), the
suspendable variant: identical to the blocking one except that it drains
the body with `await res.aread()` in place of `res.read()`; on the
fully-read Response model both drains are no-ops. -/
def ahandle_envd_api_exception (res : Response) : Except PyExn (Option ApiErr) :=
  if res.is_success then .ok none
  else
    let trace_id := py_or (headers_get res.headers "X-Trace-ID")
      (headers_get res.headers "x-trace-id")
    match get_message res with
    | .error exn => .error exn
    | .ok m => .ok (some (format_envd_api_exception res.status_code (py_fstr m) trace_id))

/-- Embedding of the KEYS table (src/ucloud_sandbox/desktop/main.py lines
20-75), in source order; Python dict lookup on unique keys is first-match
association-list lookup. -/
def KEYS : List (String × String) :=
  [("alt", "Alt_L"),
   ("alt_left", "Alt_L"),
   ("alt_right", "Alt_R"),
   ("backspace", "BackSpace"),
   ("break", "Pause"),
   ("caps_lock", "Caps_Lock"),
   ("cmd", "Super_L"),
   ("command", "Super_L"),
   ("control", "Control_L"),
   ("control_left", "Control_L"),
   ("control_right", "Control_R"),
   ("ctrl", "Control_L"),
   ("del", "Delete"),
   ("delete", "Delete"),
   ("down", "Down"),
   ("end", "End"),
   ("enter", "Return"),
   ("esc", "Escape"),
   ("escape", "Escape"),
   ("f1", "F1"),
   ("f2", "F2"),
   ("f3", "F3"),
   ("f4", "F4"),
   ("f5", "F5"),
   ("f6", "F6"),
   ("f7", "F7"),
   ("f8", "F8"),
   ("f9", "F9"),
   ("f10", "F10"),
   ("f11", "F11"),
   ("f12", "F12"),
   ("home", "Home"),
   ("insert", "Insert"),
   ("left", "Left"),
   ("menu", "Menu"),
   ("meta", "Meta_L"),
   ("num_lock", "Num_Lock"),
   ("page_down", "Page_Down"),
   ("page_up", "Page_Up"),
   ("pause", "Pause"),
   ("print", "Print"),
   ("right", "Right"),
   ("scroll_lock", "Scroll_Lock"),
   ("shift", "Shift_L"),
   ("shift_left", "Shift_L"),
   ("shift_right", "Shift_R"),
   ("space", "space"),
   ("super", "Super_L"),
   ("super_left", "Super_L"),
   ("super_right", "Super_R"),
   ("tab", "Tab"),
   ("up", "Up"),
   ("win", "Super_L"),
   ("windows", "Super_L")]

/-- Embedding of map_key (main.py lines 78-82). Python str.lower() on the
ASCII key names is String.toLower; the function lowercases the key, returns
the table entry when the lowercased key is in the table, and otherwise
returns the lowercased key. -/
def map_key (key : String) : String :=
  let lower_key := key.toLower
  match KEYS.lookup lower_key with
  | some v => v
  | none => lower_key

/-- Modelled from the spec: commands.run of the command module, which is
not under src. Section 7 of the design notes: a command that exits nonzero
raises the command-exit error carrying the full CommandResult; a zero exit
returns the result. -/
def run_command (r : CommandResult) : Except CommandExit CommandResult :=
  if r.exit_code = 0 then .ok r else .error ⟨r⟩

/-- Loop body of Sandbox._wait_and_verify (main.py lines 376-394),
unrolled on the number of remaining iterations. The probe gives the
outcome of `self.commands.run(cmd)` at each attempt index: either a
CommandResult or a raised command-exit error, which the except branch of
the source swallows as one failed attempt. The second component of the
value counts the probe attempts issued. -/
def waitLoopAux (probe : Nat → Except CommandExit CommandResult)
    (on_result : CommandResult → Bool) : Nat → Nat → Bool × Nat
  | k, 0 => (false, k)
  | k, fuel + 1 =>
    match probe k with
    | .ok r => if on_result r then (true, k + 1)
               else waitLoopAux probe on_result (k + 1) fuel
    | .error _ => waitLoopAux probe on_result (k + 1) fuel

/-- Number of iterations of the while loop of _wait_and_verify: the loop
variable elapsed starts at 0 and grows by interval once per iteration, so
iteration k runs exactly when k * interval < timeout, giving
ceil(timeout / interval) iterations for a positive interval. Durations are
modelled as exact rationals. -/
def numIters (timeout interval : ℚ) : ℕ :=
  ⌈timeout / interval⌉₊

/-- Embedding of Sandbox._wait_and_verify (main.py lines 376-394): poll the
probe until the predicate accepts a result or elapsed reaches timeout,
swallowing command-exit errors of single attempts; returns whether the
predicate succeeded, paired with the number of probe attempts issued. -/
def wait_and_verify (probe : Nat → Except CommandExit CommandResult)
    (on_result : CommandResult → Bool) (timeout interval : ℚ) : Bool × Nat :=
  waitLoopAux probe on_result 0 (numIters timeout interval)

/-- Predicate: attempt k of the probe returns a result accepted by
on_result (rather than raising or being rejected). -/
def probeSat (probe : Nat → Except CommandExit CommandResult)
    (on_result : CommandResult → Bool) (k : Nat) : Prop :=
  ∃ r, probe k = .ok r ∧ on_result r = true

instance (probe : Nat → Except CommandExit CommandResult)
    (on_result : CommandResult → Bool) (k : Nat) :
    Decidable (probeSat probe on_result k) := by
  unfold probeSat
  match h : probe k with
  | .ok r =>
    exact decidable_of_iff (on_result r = true)
      ⟨fun hr => ⟨r, rfl, hr⟩, fun ⟨r2, h2, hr⟩ => by
        cases h2; exact hr⟩
  | .error e =>
    exact isFalse (fun ⟨r2, h2, _⟩ => by cases h2)

/-- Embedding of _VNCServer._check_vnc_running (main.py lines 103-108) as a
function of the outcome of running `pgrep -x x11vnc`: true when the
command returns, false when it raises the command-exit error. -/
def check_vnc_running (pgrep : Except CommandExit CommandResult) : Bool :=
  match pgrep with
  | .ok _ => true
  | .error _ => false

/-- Second statement of _VNCServer.stop: `if self.__novnc_handle:` kill the
tracked background handle and clear it. A raised kill error propagates and
skips the clearing assignment. -/
def stop_kill_phase (kill : Except PyExn Unit) (novnc_handle : Option Nat) :
    Option PyExn × Option Nat :=
  match novnc_handle with
  | none => (none, none)
  | some hdl =>
    match kill with
    | .error e => (some e, some hdl)
    | .ok _ => (none, none)

/-- Embedding of _VNCServer.stop (main.py lines 196-202) over the outcomes
of its three effects: the pgrep marker check, the `pkill x11vnc` command
and the kill of the tracked background handle; the state is the tracked
handle. The value is the propagated exception, if any, paired with the
tracked handle after the call. -/
def vnc_stop (pgrep : Except CommandExit CommandResult)
    (pkill : Except PyExn CommandResult) (kill : Except PyExn Unit)
    (novnc_handle : Option Nat) : Option PyExn × Option Nat :=
  if check_vnc_running pgrep then
    match pkill with
    | .error e => (some e, novnc_handle)
    | .ok _ => stop_kill_phase kill novnc_handle
  else stop_kill_phase kill novnc_handle

/-- Remote operations the desktop facade issues through the envd client. -/
inductive EnvdOp where
  | runCmd (cmd : String)
  | fileRead (path : String) (format : String)
  | fileRemove (path : String)
deriving Repr, DecidableEq

/-- Path of the temporary screenshot file built in Sandbox.screenshot. -/
def screenshot_path (uuid : String) : String :=
  "/tmp/screenshot-" ++ uuid ++ ".png"

/-- Embedding of Sandbox.screenshot (main.py lines 431-447) as the ordered
list of remote operations it issues before returning the value of
files.read: run scrot into the temporary path, read the file in the
requested format, remove the file. With format stream the read result is a
lazy byte iterator, so the removal is already issued when the caller first
consumes it. -/
def screenshot_ops (uuid : String) (format : String) : List EnvdOp :=
  let path := screenshot_path uuid
  [.runCmd ("scrot --pointer " ++ path),
   .fileRead path format,
   .fileRemove path]

/-- Bool test that the pattern list is an initial segment of the other. -/
def starts_with : List Char → List Char → Bool
  | [], _ => true
  | _ :: _, [] => false
  | a :: as, b :: bs => (a = b) && starts_with as bs

/-- Bool test that the pattern list occurs contiguously in the other,
used to state the stdout-contains predicate of the probe scenario. -/
def has_sub (sub : List Char) : List Char → Bool
  | [] => starts_with sub []
  | c :: t => starts_with sub (c :: t) || has_sub sub t

/-- Predicate of the probe scenario: stdout contains LISTEN. -/
def listen_pred (r : CommandResult) : Bool :=
  has_sub "LISTEN".data r.stdout.data

/-- Probe results of the scenario of the design notes, section 8: exit
codes 1, 1, 0 with stdout empty, empty, LISTEN. Attempts past the third
keep failing, which the scenario leaves unreached. -/
def results4 : List CommandResult :=
  [⟨"", "", 1⟩, ⟨"", "", 1⟩, ⟨"LISTEN", "", 0⟩]

/-- Probe of the scenario: running the command at attempt k raises on the
nonzero exit codes and returns the result on exit code 0. -/
def probe4 (k : Nat) : Except CommandExit CommandResult :=
  run_command (results4.getD k ⟨"", "", 1⟩)

/-- Witness predicate: stdout equals ready. -/
def predW_ready (r : CommandResult) : Bool := r.stdout == "ready"

/-- Witness probe whose first attempt already satisfies the predicate. -/
def probeW_ready (_ : Nat) : Except CommandExit CommandResult := .ok ⟨"ready", "", 0⟩

/-- Witness probe that returns but never satisfies the predicate. -/
def probeW_idle (_ : Nat) : Except CommandExit CommandResult := .ok ⟨"", "", 0⟩

/-- Witness predicate: stdout equals ok. -/
def predW_ok (r : CommandResult) : Bool := r.stdout == "ok"

/-- Witness probe whose first attempt raises a command-exit error. -/
def probeW_err (k : Nat) : Except CommandExit CommandResult :=
  if k = 0 then .error ⟨⟨"", "", 1⟩⟩ else .ok ⟨"ok", "", 0⟩

/-- Witness probe equal to probeW_err except that the first attempt
returns a result the predicate rejects. -/
def probeW_flat (k : Nat) : Except CommandExit CommandResult :=
  if k = 0 then .ok ⟨"", "", 0⟩ else .ok ⟨"ok", "", 0⟩

/-! Helper lemmas. -/

/-- Every branch of the status dispatch stores the given trace id. -/
theorem format_envd_trace_id (s : Nat) (m : String) (t : Option String) :
    (format_envd_api_exception s m t).trace_id = t := by
  unfold format_envd_api_exception format_sandbox_timeout_exception
  split_ifs <;> rfl

/-- The Python truthiness choice of a value with itself is that value. -/
theorem py_or_self (a : Option String) : py_or a a = a := by
  unfold py_or
  cases a with
  | none => rfl
  | some s => by_cases h : s = "" <;> simp [h]

/-- Case-insensitive lookup gives the same answer for both spellings of
the trace header name. -/
theorem headers_get_trace_eq (hs : List (String × String)) :
    headers_get hs "x-trace-id" = headers_get hs "X-Trace-ID" := by
  unfold headers_get
  have h : "x-trace-id".toLower = "X-Trace-ID".toLower := by
    simp only [String.toLower, String.map_eq]
    rfl
  rw [h]

/-- When no attempt ever satisfies the predicate, the loop consumes all of
its iterations and reports failure, counting one probe per iteration. -/
theorem waitLoopAux_never (probe : Nat → Except CommandExit CommandResult)
    (p : CommandResult → Bool) (h : ∀ k, ¬ probeSat probe p k) :
    ∀ fuel k₀, waitLoopAux probe p k₀ fuel = (false, k₀ + fuel) := by
  intro fuel
  induction fuel with
  | zero => intro k₀; rfl
  | succ n ih =>
    intro k₀
    unfold waitLoopAux
    rcases hp : probe k₀ with e | r
    · rw [ih (k₀ + 1)]
      simp only [Prod.mk.injEq, true_and]
      omega
    · have hr : p r = false := by
        by_contra hc
        exact h k₀ ⟨r, hp, by revert hc; cases p r <;> simp⟩
      simp only [hr, Bool.false_eq_true, if_false, ih (k₀ + 1), Prod.mk.injEq, true_and]
      omega

/-- When attempt k₀ is the first satisfying one and enough iterations
remain to reach it, the loop stops there with success after k₀ + 1 probe
attempts. -/
theorem waitLoopAux_first (probe : Nat → Except CommandExit CommandResult)
    (p : CommandResult → Bool) (k₀ : Nat)
    (hfirst : ∀ j, j < k₀ → ¬ probeSat probe p j) (hk : probeSat probe p k₀) :
    ∀ fuel k, k ≤ k₀ → k₀ < k + fuel → waitLoopAux probe p k fuel = (true, k₀ + 1) := by
  intro fuel
  induction fuel with
  | zero => intro k hle hlt; exfalso; omega
  | succ n ih =>
    intro k hle hlt
    unfold waitLoopAux
    by_cases hkk : k = k₀
    · subst hkk
      rcases hk with ⟨r, hp, hr⟩
      simp only [hp, hr, if_true]
    · have hklt : k < k₀ := by omega
      rcases hp : probe k with e | r
      · exact ih (k + 1) (by omega) (by omega)
      · have hr : p r = false := by
          by_contra hc
          exact hfirst k hklt ⟨r, hp, by revert hc; cases p r <;> simp⟩
        simp only [hr, Bool.false_eq_true, if_false]
        exact ih (k + 1) (by omega) (by omega)

/-- Replacing one erroring attempt by a returned result that the predicate
rejects changes nothing about the loop: the error was one not-yet-ready
attempt. -/
theorem waitLoopAux_error_congr (probe probe' : Nat → Except CommandExit CommandResult)
    (p : CommandResult → Bool) (k₀ : Nat) (e : CommandExit) (r : CommandResult)
    (he : probe k₀ = .error e) (ho : probe' k₀ = .ok r) (hr : p r = false)
    (hag : ∀ j, j ≠ k₀ → probe' j = probe j) :
    ∀ fuel k, waitLoopAux probe p k fuel = waitLoopAux probe' p k fuel := by
  intro fuel
  induction fuel with
  | zero => intro k; rfl
  | succ n ih =>
    intro k
    unfold waitLoopAux
    by_cases hk : k = k₀
    · subst hk
      simp only [he, ho, hr, Bool.false_eq_true, if_false]
      exact ih (k + 1)
    · rw [hag k hk]
      rcases hp : probe k with e2 | r2
      · exact ih (k + 1)
      · by_cases hp2 : p r2 = true
        · simp only [hp2, if_true]
        · simp only [eq_false_of_ne_true hp2, Bool.false_eq_true, if_false]
          exact ih (k + 1)

/-- Packing a valid codepoint and reading it back gives the same number. -/
theorem char_toNat_ofNat_valid {n : Nat} (h : n.isValidChar) : (Char.ofNat n).toNat = n := by
  simp [Char.ofNat, h, Char.ofNatAux, Char.toNat, UInt32.toNat, BitVec.ofNatLt]

/-- ASCII lowercasing of one character is idempotent. -/
theorem char_toLower_idem (c : Char) : c.toLower.toLower = c.toLower := by
  unfold Char.toLower
  by_cases h : c.toNat ≥ 65 ∧ c.toNat ≤ 90
  · rw [if_pos h]
    have hv : (c.toNat + 32).isValidChar := Or.inl (by omega)
    rw [char_toNat_ofNat_valid hv]
    rw [if_neg (by omega)]
  · rw [if_neg h, if_neg h]

/-- ASCII lowercasing of a string is idempotent. -/
theorem string_toLower_idem (s : String) : s.toLower.toLower = s.toLower := by
  simp only [String.toLower, String.map_eq, List.map_map]
  congr 1
  exact List.map_congr_left (fun a _ => char_toLower_idem a)

/-! Claim theorems. -/

/-- Claim C1: for every non-success transport response the classifier
produces exactly one error whose kind is fixed by the status code: 400
gives InvalidArgument, 401 AuthenticationFailed, 404 NotFound, 429 a
Generic error whose message is the extracted message followed by the fixed
rate-limit notice, 502 the specialized sandbox-timeout error built from
the message, 507 InsufficientStorage, and every other non-success status a
Generic error whose message is the numeric status code followed by the
extracted message; every successful response produces no error. -/
theorem spec_c1 :
    (∀ m t, format_envd_api_exception 400 m t = ⟨.invalidArgument, m, t⟩) ∧
    (∀ m t, format_envd_api_exception 401 m t = ⟨.authenticationFailed, m, t⟩) ∧
    (∀ m t, format_envd_api_exception 404 m t = ⟨.notFound, m, t⟩) ∧
    (∀ m t, format_envd_api_exception 429 m t
      = ⟨.generic, m ++ ": The requests are being rate limited.", t⟩) ∧
    (∀ m t, format_envd_api_exception 502 m t = format_sandbox_timeout_exception m t) ∧
    (∀ m t, format_envd_api_exception 507 m t = ⟨.insufficientStorage, m, t⟩) ∧
    (∀ s m t, s ∉ ([400, 401, 404, 429, 502, 507] : List Nat) →
      http_is_success s = false →
      format_envd_api_exception s m t = ⟨.generic, toString s ++ ": " ++ m, t⟩) ∧
    (∀ res : Response, res.is_success = true → handle_envd_api_exception res = .ok none) := by
  refine ⟨fun m t => rfl, fun m t => rfl, fun m t => rfl, fun m t => rfl,
    fun m t => rfl, fun m t => rfl, ?_, ?_⟩
  · intro s m t h _
    simp only [List.mem_cons, List.not_mem_nil, or_false, not_or] at h
    unfold format_envd_api_exception
    rw [if_neg h.1, if_neg h.2.1, if_neg h.2.2.1, if_neg h.2.2.2.1,
      if_neg h.2.2.2.2.1, if_neg h.2.2.2.2.2]
  · intro res h
    unfold handle_envd_api_exception
    rw [if_pos h]

/-- Witness for C1 at status 418 and at a successful 204 response. -/
theorem spec_c1_witness :
    format_envd_api_exception 418 "teapot" none = ⟨.generic, "418: teapot", none⟩ ∧
    handle_envd_api_exception ⟨204, [], "", .error .mk⟩ = .ok none :=
  ⟨spec_c1.2.2.2.2.2.2.1 418 "teapot" none (by decide) (by decide),
   spec_c1.2.2.2.2.2.2.2 ⟨204, [], "", .error .mk⟩ rfl⟩

/-- Claim C2: when the body parses as a JSON object containing a message
field, get_message returns exactly the value of that field; when the body
fails to parse as JSON, get_message returns the raw body text. -/
theorem spec_c2 (res : Response) (fields : List (String × JValue)) (v : JValue)
    (err : JsonDecodeError) :
    (res.jsonResult = .ok (.obj fields) → fields.lookup "message" = some v →
      get_message res = .ok v) ∧
    (res.jsonResult = .error err → get_message res = .ok (.str res.text)) := by
  constructor
  · intro h1 h2
    unfold get_message
    rw [h1]
    simp [h2]
  · intro h
    unfold get_message
    rw [h]

/-- Witness for C2 at a JSON object body and a non-JSON body. -/
theorem spec_c2_witness :
    get_message ⟨404, [], "ignored", .ok (.obj [("message", .str "nope")])⟩
      = .ok (.str "nope") ∧
    get_message ⟨500, [], "raw body", .error .mk⟩ = .ok (.str "raw body") :=
  ⟨(spec_c2 ⟨404, [], "ignored", .ok (.obj [("message", .str "nope")])⟩
      [("message", .str "nope")] (.str "nope") .mk).1 rfl rfl,
   (spec_c2 ⟨500, [], "raw body", .error .mk⟩ [] (.str "") .mk).2 rfl⟩

/-- Claim C3: the wait helper returns true on the first probe whose result
satisfies the predicate (reached within the poll window), and when the
predicate never succeeds it returns false after ceil(timeout / interval)
probe attempts, a count within one of timeout / interval, without raising
(the function is total and the command-exit errors of single attempts are
swallowed by construction). -/
theorem spec_c3 (probe : Nat → Except CommandExit CommandResult)
    (on_result : CommandResult → Bool) (timeout interval : ℚ)
    (hi : 0 < interval) (ht : 0 ≤ timeout) :
    (∀ k₀, (∀ j, j < k₀ → ¬ probeSat probe on_result j) → probeSat probe on_result k₀ →
      k₀ < numIters timeout interval →
      wait_and_verify probe on_result timeout interval = (true, k₀ + 1)) ∧
    ((∀ k, ¬ probeSat probe on_result k) →
      wait_and_verify probe on_result timeout interval = (false, numIters timeout interval) ∧
      timeout / interval ≤ (numIters timeout interval : ℚ) ∧
      (numIters timeout interval : ℚ) ≤ timeout / interval + 1) := by
  constructor
  · intro k₀ hfirst hk hlt
    unfold wait_and_verify
    exact waitLoopAux_first probe on_result k₀ hfirst hk (numIters timeout interval) 0
      (Nat.zero_le k₀) (by omega)
  · intro hnever
    refine ⟨?_, ?_, ?_⟩
    · unfold wait_and_verify
      rw [waitLoopAux_never probe on_result hnever (numIters timeout interval) 0]
      simp
    · exact Nat.le_ceil (timeout / interval)
    · exact le_of_lt (Nat.ceil_lt_add_one (div_nonneg ht (le_of_lt hi)))

/-- Witness for C3: an immediately ready probe returns true after one
attempt; a never-ready probe returns false after 20 attempts for timeout
10 and interval one half. -/
theorem spec_c3_witness :
    wait_and_verify probeW_ready predW_ready 10 (1/2) = (true, 1) ∧
    (wait_and_verify probeW_idle predW_ready 10 (1/2) = (false, numIters 10 (1/2)) ∧
     (10 : ℚ) / (1/2) ≤ (numIters 10 (1/2) : ℚ) ∧
     (numIters 10 (1/2) : ℚ) ≤ 10 / (1/2) + 1) := by
  have h0 : (0 : ℚ) < 1/2 := by norm_num
  have h10 : (0 : ℚ) ≤ 10 := by norm_num
  constructor
  · refine (spec_c3 probeW_ready predW_ready 10 (1/2) h0 h10).1 0
      (fun j hj => absurd hj (Nat.not_lt_zero j)) ⟨⟨"ready", "", 0⟩, rfl, rfl⟩ ?_
    have h20 : numIters 10 (1/2) = 20 := by unfold numIters; norm_num
    omega
  · exact (spec_c3 probeW_idle predW_ready 10 (1/2) h0 h10).2
      (fun k hsat => by
        rcases hsat with ⟨r, hr, hpred⟩
        simp only [probeW_idle, Except.ok.injEq] at hr
        subst hr
        exact absurd hpred (by decide))

/-- Claim C4: an attempt that raises a command-exit error is swallowed as
one not-yet-ready attempt and polling continues, so the wait result is
unchanged when such an attempt is replaced by a rejected result; in
particular the probe scenario with exit codes 1, 1, 0 and stdout empty,
empty, LISTEN against the stdout-contains-LISTEN predicate with timeout 5
and interval 1 returns true after exactly 3 attempts. -/
theorem spec_c4 :
    (∀ (probe probe' : Nat → Except CommandExit CommandResult)
       (on_result : CommandResult → Bool) (timeout interval : ℚ)
       (k₀ : Nat) (e : CommandExit) (r : CommandResult),
      probe k₀ = .error e → probe' k₀ = .ok r → on_result r = false →
      (∀ j, j ≠ k₀ → probe' j = probe j) →
      wait_and_verify probe on_result timeout interval
        = wait_and_verify probe' on_result timeout interval) ∧
    wait_and_verify probe4 listen_pred 5 1 = (true, 3) := by
  constructor
  · intro probe probe' on_result timeout interval k₀ e r he ho hr hag
    unfold wait_and_verify
    exact waitLoopAux_error_congr probe probe' on_result k₀ e r he ho hr hag
      (numIters timeout interval) 0
  · unfold wait_and_verify
    have h5 : numIters 5 1 = 5 := by unfold numIters; norm_num
    rw [h5]
    decide

/-- Witness for C4: a probe erroring on its first attempt waits exactly
like its rejected-result counterpart, and the concrete scenario holds. -/
theorem spec_c4_witness :
    wait_and_verify probeW_err predW_ok 3 1 = wait_and_verify probeW_flat predW_ok 3 1 ∧
    wait_and_verify probe4 listen_pred 5 1 = (true, 3) :=
  ⟨spec_c4.1 probeW_err probeW_flat predW_ok 3 1 0 ⟨⟨"", "", 1⟩⟩ ⟨"", "", 0⟩
     rfl rfl rfl (fun j hj => by simp [probeW_err, probeW_flat, hj]),
   spec_c4.2⟩

/-- Claim C5: on every fully-read response triple the blocking classifier
and the suspendable classifier produce identical results: the same absence
of error on success and the same error kind, message and trace id on
failure. -/
theorem spec_c5 (res : Response) :
    handle_envd_api_exception res = ahandle_envd_api_exception res := rfl

/-- Claim C6, counterexample: the lowercase form of UNKNOWN_KEY is not in
the key table, yet map_key does not return the name unchanged; it returns
the lowercased name. -/
theorem spec_c6_counterexample :
    KEYS.lookup (String.toLower "UNKNOWN_KEY") = none ∧
    map_key "UNKNOWN_KEY" = "unknown_key" ∧
    map_key "UNKNOWN_KEY" ≠ "UNKNOWN_KEY" := by
  refine ⟨?_, ?_, ?_⟩ <;>
    (simp only [map_key, String.toLower, String.map_eq]; decide)

/-- Claim C6, amended: map_key is a case-insensitive total mapping, every
key name maps like its lowercased form, and a name whose lowercase form is
not in the key table yields the lowercased name (not the original name). -/
theorem spec_c6 (key : String) :
    map_key key = map_key key.toLower ∧
    (KEYS.lookup key.toLower = none → map_key key = key.toLower) := by
  constructor
  · simp only [map_key, string_toLower_idem]
  · intro h
    simp only [map_key, h]

/-- Witness for C6 at the names CTRL and QQQ. -/
theorem spec_c6_witness :
    map_key "CTRL" = map_key "CTRL".toLower ∧
    map_key "QQQ" = "QQQ".toLower :=
  ⟨(spec_c6 "CTRL").1,
   (spec_c6 "QQQ").2 (by simp only [String.toLower, String.map_eq]; decide)⟩

/-- Claim C7: every error the envd classifier constructs carries the trace
id read case-insensitively from the X-Trace-ID response header when it is
present, and carries no trace id when the response has no such header. -/
theorem spec_c7 (res : Response) (err : ApiErr)
    (h : handle_envd_api_exception res = .ok (some err)) :
    (∀ v, headers_get res.headers "X-Trace-ID" = some v → err.trace_id = some v) ∧
    (headers_get res.headers "X-Trace-ID" = none → err.trace_id = none) := by
  unfold handle_envd_api_exception at h
  by_cases hs : res.is_success
  · rw [if_pos hs] at h
    exact absurd h (by simp)
  · rw [if_neg hs] at h
    rcases hm : get_message res with e | m
    · rw [hm] at h
      exact absurd h (by simp)
    · rw [hm] at h
      simp only [Except.ok.injEq, Option.some.injEq] at h
      have htr : err.trace_id
          = py_or (headers_get res.headers "X-Trace-ID")
              (headers_get res.headers "x-trace-id") := by
        rw [← h, format_envd_trace_id]
      rw [headers_get_trace_eq, py_or_self] at htr
      constructor
      · intro v hv
        rw [htr, hv]
      · intro hv
        rw [htr, hv]

/-- Witness for C7 at a response with a trace header and one without. -/
theorem spec_c7_witness :
    (⟨ErrKind.generic, "500: boom", some "t-1"⟩ : ApiErr).trace_id = some "t-1" ∧
    (⟨ErrKind.notFound, "gone", none⟩ : ApiErr).trace_id = none :=
  ⟨(spec_c7 ⟨500, [("X-Trace-ID", "t-1")], "boom", .error .mk⟩
      ⟨ErrKind.generic, "500: boom", some "t-1"⟩
      (by simp only [handle_envd_api_exception, headers_get, String.toLower, String.map_eq]
          rfl)).1 "t-1"
      (by simp only [headers_get, String.toLower, String.map_eq]; rfl),
   (spec_c7 ⟨404, [], "gone", .ok (.obj [("message", .str "gone")])⟩
      ⟨ErrKind.notFound, "gone", none⟩
      (by simp only [handle_envd_api_exception, headers_get, String.toLower, String.map_eq]
          rfl)).2
      (by simp only [headers_get]; rfl)⟩

/-- Claim C8, counterexample: from a state holding a tracked background
handle, a failing kill makes stop propagate the failure and leave the
handle held, so stop does not always end in the Stopped state. -/
theorem spec_c8_counterexample :
    vnc_stop (.error ⟨⟨"", "", 1⟩⟩) (.ok ⟨"", "", 0⟩) (.error (.err "kill failed")) (some 7)
      = (some (.err "kill failed"), some 7) ∧
    (vnc_stop (.error ⟨⟨"", "", 1⟩⟩) (.ok ⟨"", "", 0⟩) (.error (.err "kill failed"))
      (some 7)).2 ≠ none ∧
    (vnc_stop (.error ⟨⟨"", "", 1⟩⟩) (.ok ⟨"", "", 0⟩) (.error (.err "kill failed"))
      (some 7)).1 ≠ none := by
  refine ⟨rfl, ?_, ?_⟩ <;> decide

/-- Claim C8, amended: when the termination steps stop performs succeed it
always ends with no tracked handle and no raised error, from every
starting state; but a failure of the handle kill propagates and leaves the
tracked handle held. -/
theorem spec_c8 (pgrep : Except CommandExit CommandResult)
    (pkill : Except PyExn CommandResult) (kill : Except PyExn Unit)
    (novnc_handle : Option Nat) :
    ((∃ r, pkill = .ok r) → kill = .ok () →
      vnc_stop pgrep pkill kill novnc_handle = (none, none)) ∧
    (∀ e hdl, kill = .error e → (∃ r, pkill = .ok r) →
      vnc_stop pgrep pkill kill (some hdl) = (some e, some hdl)) := by
  constructor
  · rintro ⟨r, hpk⟩ hkl
    subst hpk hkl
    unfold vnc_stop stop_kill_phase
    cases check_vnc_running pgrep <;> cases novnc_handle <;> simp
  · rintro e hdl hkl ⟨r, hpk⟩
    subst hpk hkl
    unfold vnc_stop stop_kill_phase
    cases check_vnc_running pgrep <;> simp

/-- Witness for C8: a fully successful stop clears the handle, and a
failing kill propagates while keeping the handle. -/
theorem spec_c8_witness :
    vnc_stop (.ok ⟨"4242", "", 0⟩) (.ok ⟨"", "", 0⟩) (.ok ()) (some 3) = (none, none) ∧
    vnc_stop (.error ⟨⟨"", "", 1⟩⟩) (.ok ⟨"", "", 0⟩) (.error (.err "boom")) (some 3)
      = (some (.err "boom"), some 3) :=
  ⟨(spec_c8 (.ok ⟨"4242", "", 0⟩) (.ok ⟨"", "", 0⟩) (.ok ()) (some 3)).1
     ⟨⟨"", "", 0⟩, rfl⟩ rfl,
   (spec_c8 (.error ⟨⟨"", "", 1⟩⟩) (.ok ⟨"", "", 0⟩) (.error (.err "boom")) (some 3)).2
     (.err "boom") 3 rfl ⟨⟨"", "", 0⟩, rfl⟩⟩

/-- Claim C9: the raw-text fallback of get_message covers only bodies that
fail JSON parsing; on a body that is valid JSON but not an object, such as
an array or a bare number, get_message raises an uncaught AttributeError
instead of returning any message, because only JSON decode errors are
caught. -/
theorem spec_c9 :
    get_message ⟨503, [], "[1, 2]", .ok (.arr [.num 1, .num 2])⟩ = .error .attributeError ∧
    get_message ⟨503, [], "3", .ok (.num 3)⟩ = .error .attributeError :=
  ⟨rfl, rfl⟩

/-- Claim C10: for every screenshot call, in both the bytes and the stream
format, the remote temporary file is removed after files.read and before
the return (for the stream format before the lazy result can be consumed),
and no remote file beyond the scrot output and its removal is touched. -/
theorem spec_c10 (uuid format : String) :
    screenshot_ops uuid format =
      [.runCmd ("scrot --pointer " ++ screenshot_path uuid),
       .fileRead (screenshot_path uuid) format,
       .fileRemove (screenshot_path uuid)] ∧
    ((screenshot_ops uuid format)[1]? = some (.fileRead (screenshot_path uuid) format) ∧
     (screenshot_ops uuid format)[2]? = some (.fileRemove (screenshot_path uuid)) ∧
     (1 : Nat) < 2) ∧
    (∀ p f2, EnvdOp.fileRead p f2 ∈ screenshot_ops uuid format →
      p = screenshot_path uuid) ∧
    (∀ p, EnvdOp.fileRemove p ∈ screenshot_ops uuid format → p = screenshot_path uuid) ∧
    (∀ c, EnvdOp.runCmd c ∈ screenshot_ops uuid format →
      c = "scrot --pointer " ++ screenshot_path uuid) := by
  refine ⟨rfl, ⟨rfl, rfl, by omega⟩, ?_, ?_, ?_⟩
  · intro p f2 h
    simp only [screenshot_ops, List.mem_cons, List.not_mem_nil, or_false] at h
    rcases h with h | h | h <;> simp_all
  · intro p h
    simp only [screenshot_ops, List.mem_cons, List.not_mem_nil, or_false] at h
    rcases h with h | h | h <;> simp_all
  · intro c h
    simp only [screenshot_ops, List.mem_cons, List.not_mem_nil, or_false] at h
    rcases h with h | h | h <;> simp_all

/-- Witness for C10 at a concrete uuid with the stream format. -/
theorem spec_c10_witness :
    screenshot_ops "u1" "stream" =
      [.runCmd ("scrot --pointer " ++ screenshot_path "u1"),
       .fileRead (screenshot_path "u1") "stream",
       .fileRemove (screenshot_path "u1")] ∧
    "/tmp/screenshot-u1.png" = screenshot_path "u1" :=
  ⟨(spec_c10 "u1" "stream").1,
   (spec_c10 "u1" "stream").2.2.2.1 "/tmp/screenshot-u1.png" (by decide)⟩
